import Mathlib

/-!
Shallow embedding of the two batch scripts `scripts/generate_videos.py` and
`scripts/generate_videos_local.py` of the Automation-for-Instagram repository.
Python strings are embedded as `List Char`; fallible indexing is embedded in
the `Option` monad; filesystem side effects are embedded as explicit state
passing over a `Finset String` of existing paths; float durations are embedded
as rationals.
-/

/-- Python strings, embedded as lists of characters. -/
abbrev PyStr := List Char

/-- A character Python's `str.strip()` removes (ASCII whitespace). -/
def isPySpace (c : Char) : Bool :=
  c = ' ' || c = '\t' || c = '\n' || c = '\r' || c = '\x0b' || c = '\x0c'

/-- Python `str.strip()`: remove leading and trailing whitespace. -/
def pyStrip (l : PyStr) : PyStr :=
  ((l.dropWhile isPySpace).reverse.dropWhile isPySpace).reverse

/-- Helper for `splitLines`: accumulate the current line (reversed). -/
def splitLinesAux : List Char → List Char → List (List Char)
  | cur, [] => [cur.reverse]
  | cur, c :: rest =>
    if c = '\n' then cur.reverse :: splitLinesAux [] rest
    else splitLinesAux (c :: cur) rest

/-- Python `str.splitlines()`, embedded as splitting on newline characters.
(The possible trailing empty piece is stripped and skipped as a blank line by
every caller, so it is unobservable.) -/
def splitLines (t : PyStr) : List PyStr := splitLinesAux [] t

/-- Python subscript `s[n]` on a string: `none` models the `IndexError`. -/
def pyGet (l : PyStr) (n : Nat) : Option Char := l[n]?

/-- Python `line.split('.', 1)[1]`, defined when `'.' ∈ line`: everything
after the first dot. -/
def afterFirstDot (l : PyStr) : PyStr := (l.dropWhile (fun c => c ≠ '.')).drop 1

/-- One iteration of the line-parsing loop of `generate_tech_tips` in
`scripts/generate_videos.py` (lines 44-47), applied to an already stripped,
non-blank line.  The source reads
`if line[0].isdigit() and (line[1] == '.' or line[1] == ')'):` followed by
`line = line.split('.',1)[1].strip() if '.' in line else line`; the subscript
`line[1]` is evaluated without a length guard, so it can raise `IndexError`
(`none`). -/
def processLinePy (line : PyStr) : Option PyStr := do
  let c0 ← pyGet line 0
  if c0.isDigit then do
    let c1 ← pyGet line 1
    if c1 = '.' ∨ c1 = ')' then
      pure (if '.' ∈ line then pyStrip (afterFirstDot line) else line)
    else
      pure line
  else
    pure line

/-- The line-parsing loop of `generate_tech_tips` in
`scripts/generate_videos.py` (lines 39-47): strip each line, skip blank
lines, strip a leading enumeration marker, collect in order.  `none` models
an uncaught `IndexError` inside the loop. -/
def parseLinesPy : List PyStr → Option (List PyStr)
  | [] => some []
  | l :: rest =>
    let line := pyStrip l
    if line = [] then parseLinesPy rest
    else do
      let line2 ← processLinePy line
      let rest2 ← parseLinesPy rest
      pure (line2 :: rest2)

/-- Helper for `sentSplit`, embedding Python
`re.split(r'(?<=[.!?]) +', text)` as a left-to-right scan: a separator is a
maximal run of spaces whose first space is directly preceded by `.`, `!` or
`?`.  State: `inSep` (currently inside a separator run), `prev` (previous
character of the input, if any), `cur` (current piece, reversed). -/
def sentSplitAux : Bool → Option Char → List Char → List Char → List (List Char)
  | _, _, cur, [] => [cur.reverse]
  | inSep, prev, cur, c :: rest =>
    if inSep then
      if c = ' ' then sentSplitAux true (some ' ') cur rest
      else sentSplitAux false (some c) [c] rest
    else
      if c = ' ' ∧ (prev = some '.' ∨ prev = some '!' ∨ prev = some '?') then
        cur.reverse :: sentSplitAux true (some ' ') [] rest
      else sentSplitAux false (some c) (c :: cur) rest

/-- Python `re.split(r'(?<=[.!?]) +', text)`: split at runs of spaces that
follow a sentence-ending punctuation character. -/
def sentSplit (text : PyStr) : List PyStr := sentSplitAux false none [] text

/-- The sentence fallback shared by both scripts
(`generate_videos.py` lines 48-52, `generate_videos_local.py` lines 64-68):
`lines = [s.strip() for s in sentences if len(s.strip())>10][:num_tips]`. -/
def sentenceFallback (text : PyStr) (num_tips : Nat) : List PyStr :=
  ((((sentSplit text).filter (fun s => 10 < (pyStrip s).length)).map pyStrip).take num_tips)

/-- `generate_tech_tips` of `scripts/generate_videos.py` (lines 29-53), as a
function of the completion reply `text` (the network call is external).
`none` models an uncaught `IndexError` while parsing the reply. -/
def generate_tech_tips_py (text : PyStr) (num_tips : Nat) : Option (List PyStr) := do
  let lines ← parseLinesPy (splitLines text)
  let lines := if lines.length < num_tips then sentenceFallback text num_tips else lines
  pure (lines.take num_tips)

/-- The `while idx < len(line) and line[idx] not in ['.', ')']: idx += 1`
loop of `generate_videos_local.py` (lines 60-61), scanning `chars`
(the characters of `line` from position `idx` on) and returning the final
`idx`. -/
def scanStop : List Char → Nat → Nat
  | [], idx => idx
  | c :: rest, idx => if c = '.' ∨ c = ')' then idx else scanStop rest (idx + 1)

/-- One iteration of the line-parsing loop of `generate_tech_tips` in
`scripts/generate_videos_local.py` (lines 56-62): the marker branch is
guarded by `len(line) > 1`, so (unlike `processLinePy`) no subscript can be
out of bounds. -/
def processLineLocal (line : PyStr) : Option PyStr :=
  if 1 < line.length then do
    let c0 ← pyGet line 0
    if c0.isDigit then do
      let c1 ← pyGet line 1
      if c1 = '.' ∨ c1 = ')' then
        let idx := scanStop (line.drop 1) 1
        pure (if idx < line.length then pyStrip (line.drop (idx + 1)) else line)
      else pure line
    else pure line
  else pure line

/-- The line-parsing loop of `generate_tech_tips` in
`scripts/generate_videos_local.py` (lines 51-63). -/
def parseLinesLocal : List PyStr → Option (List PyStr)
  | [] => some []
  | l :: rest =>
    let line := pyStrip l
    if line = [] then parseLinesLocal rest
    else do
      let line2 ← processLineLocal line
      let rest2 ← parseLinesLocal rest
      pure (line2 :: rest2)

/-- `generate_tech_tips` of `scripts/generate_videos_local.py`
(lines 34-69), as a function of the completion reply `text`. -/
def generate_tech_tips_local (text : PyStr) (num_tips : Nat) : Option (List PyStr) := do
  let lines ← parseLinesLocal (splitLines text)
  let lines := if lines.length < num_tips then sentenceFallback text num_tips else lines
  pure (lines.take num_tips)

/-- The clip-duration selection of `build_video`
(`generate_videos.py` line 67, `generate_videos_local.py` line 108):
`clip_duration = duration if duration else max(8, min(25, aud_duration + 0.5))`.
Python truthiness: both `None` and `0` select the computed duration. -/
def clip_duration (duration : Option ℚ) (aud_duration : ℚ) : ℚ :=
  match duration with
  | some d => if d = 0 then max 8 (min 25 (aud_duration + 1/2)) else d
  | none => max 8 (min 25 (aud_duration + 1/2))

/-- A moviepy clip, abstracted to its duration (the only attribute the
claims are about). -/
structure Clip where
  duration : ℚ

/-- Model of moviepy `clip.subclip(t0, t1)`: the result plays the segment
`[t0, t1]`, so it lasts `t1 - t0`; a range outside `[0, duration]` raises
(`none`). -/
def Clip.subclip (c : Clip) (t0 t1 : ℚ) : Option Clip :=
  if 0 ≤ t0 ∧ t0 ≤ t1 ∧ t1 ≤ c.duration then some ⟨t1 - t0⟩ else none

/-- Model of moviepy `clip.set_duration(d)`: the reported duration becomes
`d` (a shorter clip freezes on its last frame). -/
def Clip.set_duration (_c : Clip) (d : ℚ) : Clip := ⟨d⟩

/-- The stock-clip trimming of `build_video`
(`generate_videos.py` line 75, `generate_videos_local.py` line 117):
`bg.subclip(0, min(clip_duration, bg.duration)).set_duration(clip_duration)`
for a stock clip `bg` of native duration `bg.duration`. -/
def stock_subclip_track (bg : Clip) (dur : ℚ) : Option Clip :=
  (bg.subclip 0 (min dur bg.duration)).map (fun c => c.set_duration dur)

/-- A stock-clip path as the background branch observes it: whether the path
exists, whether moviepy can decode the file, and its native duration. -/
structure StockAsset where
  present : Bool
  readable : Bool
  native : ℚ

/-- The background track produced by `build_video`. -/
inductive Background
  | stock (d : ℚ)
  | solid (color : ℕ × ℕ × ℕ) (d : ℚ)

/-- The background selection of `build_video` in `scripts/generate_videos.py`
(lines 72-79): if a stock path is given and exists, the clip is decoded with
no exception handler — an unreadable or corrupt file raises and propagates
(`Except.error`); otherwise a solid `ColorClip` of `bg_color` for
`dur` seconds. -/
def build_background_py (use_stock_clip : Option StockAsset) (dur : ℚ)
    (bg_color : ℕ × ℕ × ℕ) : Except String Background :=
  match use_stock_clip with
  | some a =>
    if a.present then
      if a.readable then
        match stock_subclip_track ⟨a.native⟩ dur with
        | some c => Except.ok (Background.stock c.duration)
        | none => Except.error "subclip range error"
      else Except.error "cannot read stock clip"
    else Except.ok (Background.solid bg_color dur)
  | none => Except.ok (Background.solid bg_color dur)

/-- The background selection of `build_video` in
`scripts/generate_videos_local.py` (lines 112-121): the whole stock branch is
wrapped in `try: ... except Exception:` whose handler builds the solid
`ColorClip`, so any decode or trim failure falls back to the solid color. -/
def build_background_local (use_stock_clip : Option StockAsset) (dur : ℚ)
    (bg_color : ℕ × ℕ × ℕ) : Except String Background :=
  match use_stock_clip with
  | some a =>
    if a.present then
      match (if a.readable then stock_subclip_track ⟨a.native⟩ dur else none) with
      | some c => Except.ok (Background.stock c.duration)
      | none => Except.ok (Background.solid bg_color dur)
    else Except.ok (Background.solid bg_color dur)
  | none => Except.ok (Background.solid bg_color dur)

/-- The filesystem effect of a successful `build_video` in
`scripts/generate_videos.py` (lines 61-103) on the set `fs` of existing
paths, in source order: `create_voice` writes the narration file
`audio_file` (line 64), `write_videofile` writes `output_path` (line 97),
and the cleanup block (lines 100-103) only calls `audio.close()` inside
`try/except` — nothing is ever deleted. -/
def build_video_fs_py (fs : Finset String) (audio_file output_path : String) :
    Finset String :=
  insert output_path (insert audio_file fs)

/-- The filesystem effect of a successful `build_video` in
`scripts/generate_videos_local.py` (lines 103-138), in source order:
`create_voice` writes `audio_file` (line 105), `create_text_image_clip`
saves the caption raster `tmp_img` (line 98), `write_videofile` writes
`output_path` (line 129), then `audio.close()` (no deletion) and
`tmp_img.unlink()` each inside `try/except`. -/
def build_video_fs_local (fs : Finset String)
    (audio_file tmp_img output_path : String) : Finset String :=
  (insert output_path (insert tmp_img (insert audio_file fs))).erase tmp_img

/-- The manifest path written by both driver loops. -/
def MANIFEST_FILE : String := "outputs/videos_log.json"

/-- The per-tip driver loop of both `__main__` blocks: each job is the
output-file name of one tip paired with whether its `build_video` call
succeeds; a successful build adds the file, a failing one raises, leaving
the filesystem as it stands (`Except.error`). -/
def runLoop : Finset String → List (String × Bool) → Except (Finset String) (Finset String)
  | fs, [] => Except.ok fs
  | fs, job :: rest =>
    if job.2 then runLoop (insert job.1 fs) rest else Except.error fs

/-- The `__main__` block of either script
(`generate_videos.py` lines 106-123, `generate_videos_local.py`
lines 141-157): `generate_tech_tips` runs first (`genOk` records whether it
raises), then the per-tip loop, and only after the whole loop does
`json.dump` write `videos_log.json` — exactly once.  Returns the final
filesystem, the process exit status, and how many times the manifest was
written.  An uncaught exception exits with status `1`. -/
def runBatch (fs0 : Finset String) (genOk : Bool) (jobs : List (String × Bool)) :
    Finset String × Nat × Nat :=
  if genOk then
    match runLoop fs0 jobs with
    | Except.ok fs => (insert MANIFEST_FILE fs, 0, 1)
    | Except.error fs => (fs, 1, 0)
  else (fs0, 1, 0)

/-- Decimal digits of a natural number (fuel-driven so that it reduces by
kernel computation), modelling Python's decimal rendering of an `int`
inside an f-string. -/
def toDecimalAux : Nat → Nat → List Char
  | 0, _ => []
  | fuel + 1, n =>
    if n < 10 then [Nat.digitChar n]
    else toDecimalAux fuel (n / 10) ++ [Nat.digitChar (n % 10)]

/-- Decimal rendering of a natural number, as Python's `f"{n}"`. -/
def toDecimal (n : Nat) : List Char := toDecimalAux (n + 1) n

/-- The output-file name of both driver loops
(`generate_videos.py` line 111, `generate_videos_local.py` line 146):
`f"tech_tip_{int(time.time())}_{i+1}.mp4"` for timestamp `ts` and 0-based
loop index `i`. -/
def video_name (ts i : Nat) : List Char :=
  "tech_tip_".data ++ (toDecimal ts ++ ('_' :: (toDecimal (i + 1) ++ ".mp4".data)))

/-- A sample completion reply: a single unnumbered paragraph of six
sentences, each longer than 10 characters after trimming. -/
def samplePara : PyStr :=
  "Use two monitors at work. Back up your files weekly. Update your software often. Mute notifications at night. Restart your router monthly. Clean your keyboard gently.".data

/-- The number a list of decimal digits denotes; left inverse of
`toDecimal`, used to prove `toDecimal` injective. -/
def evalDec (l : List Char) : Nat :=
  l.foldl (fun acc c => 10 * acc + (c.toNat - 48)) 0

/-! ## Theorems -/

/-- Claim C2: in `build_video`, when the `duration` argument is not supplied
(`None`), the clip duration is computed from the narration audio length `a`
as `max(8, min(25, a + 0.5))`, i.e. `clamp(a + 0.5, 8, 25)`, and for every
narration length it lies in the closed interval `[8, 25]`. -/
theorem c2_duration_clamp_and_bounds (a : ℚ) :
    clip_duration none a = max 8 (min 25 (a + 1/2)) ∧
    8 ≤ clip_duration none a ∧ clip_duration none a ≤ 25 := by
  refine ⟨rfl, le_max_left _ _, ?_⟩
  exact max_le (by norm_num) (min_le_left _ _)

/-- Claim C3: for every existing stock clip whose native duration is shorter
than the requested clip duration, the background track built from it
(`subclip` from `0` to `min(requested, native)`, then `set_duration` to the
requested value) has duration exactly the requested duration, and no
exception is raised on this path (`subclip` returns `some`). -/
theorem c3_short_stock_clip_stretched (native requested : ℚ)
    (hnn : 0 ≤ native) (hlt : native < requested) :
    stock_subclip_track ⟨native⟩ requested = some ⟨requested⟩ := by
  have hmin : min requested native = native := min_eq_right hlt.le
  simp [stock_subclip_track, Clip.subclip, Clip.set_duration, hmin, hnn]

/-- Witness for C3 at `native = 2`, `requested = 8`. -/
theorem c3_short_stock_clip_stretched_witness :
    (0 : ℚ) ≤ 2 ∧ (2 : ℚ) < 8 ∧ stock_subclip_track ⟨2⟩ 8 = some ⟨8⟩ :=
  ⟨by norm_num, by norm_num,
    c3_short_stock_clip_stretched 2 8 (by norm_num) (by norm_num)⟩

/-- Claim C9: `build_video` tests its `duration` override for truthiness
rather than for `None`: for the explicit argument `duration = 0` the
override is ignored and the clip duration is computed from the narration
length as `max(8, min(25, narration_length + 0.5))` instead of being `0`. -/
theorem c9_zero_duration_override_ignored (a : ℚ) :
    clip_duration (some 0) a = max 8 (min 25 (a + 1/2)) ∧
    clip_duration (some 0) a ≠ 0 := by
  constructor
  · rfl
  · have h8 : (8 : ℚ) ≤ clip_duration (some 0) a := le_max_left _ _
    exact fun h0 => by rw [h0] at h8; norm_num at h8

/-- Counterexample for claim C5: the claim says an unreadable or corrupt
stock clip is "never fatal to the batch in either implementation", but in
`scripts/generate_videos.py` the stock branch has no exception handler: an
existing unreadable clip makes `build_video` raise, which propagates out of
the batch loop. -/
theorem c5_py_asset_error_is_fatal :
    build_background_py (some ⟨true, false, 5⟩) 8 (18, 18, 18) =
      Except.error "cannot read stock clip" := rfl

/-- Claim C5 as amended: in `scripts/generate_videos_local.py` an existing
but unreadable stock clip is recovered locally by falling back to a solid
background of the given RGB color for the full clip duration, while in
`scripts/generate_videos.py` the same asset error raises and is fatal. -/
theorem c5_asset_error_local_recovers_py_fatal
    (a : StockAsset) (dur : ℚ) (color : ℕ × ℕ × ℕ)
    (hp : a.present = true) (hr : a.readable = false) :
    build_background_local (some a) dur color =
      Except.ok (Background.solid color dur) ∧
    build_background_py (some a) dur color =
      Except.error "cannot read stock clip" := by
  constructor
  · simp [build_background_local, hp, hr]
  · simp [build_background_py, hp, hr]

/-- Witness for the amended C5 at a concrete unreadable asset. -/
theorem c5_asset_error_local_recovers_py_fatal_witness :
    build_background_local (some ⟨true, false, 5⟩) 8 (18, 18, 18) =
      Except.ok (Background.solid (18, 18, 18) 8) ∧
    build_background_py (some ⟨true, false, 5⟩) 8 (18, 18, 18) =
      Except.error "cannot read stock clip" :=
  c5_asset_error_local_recovers_py_fatal ⟨true, false, 5⟩ 8 (18, 18, 18) rfl rfl

/-- Counterexample for claim C4: the claim says that after a successful
`build_video` the temporary narration audio file
`output_path.with_suffix(".mp3")` no longer exists on disk, but neither
script ever deletes it — the cleanup block only calls `audio.close()`
(and, in the local script, unlinks the caption raster).  After a successful
build from an empty filesystem the `.mp3` file is still present in both
variants. -/
theorem c4_narration_file_not_deleted :
    "outputs/v.mp3" ∈
      build_video_fs_local ∅ "outputs/v.mp3" "outputs/t.png" "outputs/v.mp4" ∧
    "outputs/v.mp3" ∈ build_video_fs_py ∅ "outputs/v.mp3" "outputs/v.mp4" := by
  constructor
  · simp [build_video_fs_local, Finset.mem_erase, Finset.mem_insert]
  · simp [build_video_fs_py, Finset.mem_insert]

/-- Claim C4 as amended: after `build_video` completes successfully, the
temporary caption raster image used by `generate_videos_local.py` no longer
exists on disk (deletion failures being swallowed by `try/except`), the
output video exists, but the per-tip temporary narration audio file at
`output_path.with_suffix(".mp3")` still exists in both scripts: cleanup only
closes the audio reader and never unlinks the `.mp3`. -/
theorem c4_cleanup_behaviour (fs : Finset String)
    (audio_file tmp_img output_path : String)
    (h1 : tmp_img ≠ audio_file) (h2 : tmp_img ≠ output_path) :
    tmp_img ∉ build_video_fs_local fs audio_file tmp_img output_path ∧
    audio_file ∈ build_video_fs_local fs audio_file tmp_img output_path ∧
    output_path ∈ build_video_fs_local fs audio_file tmp_img output_path ∧
    audio_file ∈ build_video_fs_py fs audio_file output_path ∧
    output_path ∈ build_video_fs_py fs audio_file output_path := by
  refine ⟨Finset.not_mem_erase _ _, ?_, ?_, ?_, ?_⟩
  · exact Finset.mem_erase.mpr ⟨fun h => h1 h.symm, by simp⟩
  · exact Finset.mem_erase.mpr ⟨fun h => h2 h.symm, by simp⟩
  · simp [build_video_fs_py]
  · simp [build_video_fs_py]

/-- Witness for the amended C4 at concrete paths. -/
theorem c4_cleanup_behaviour_witness :
    "outputs/t.png" ∉
      build_video_fs_local ∅ "outputs/v.mp3" "outputs/t.png" "outputs/v.mp4" ∧
    "outputs/v.mp3" ∈
      build_video_fs_local ∅ "outputs/v.mp3" "outputs/t.png" "outputs/v.mp4" ∧
    "outputs/v.mp4" ∈
      build_video_fs_local ∅ "outputs/v.mp3" "outputs/t.png" "outputs/v.mp4" ∧
    "outputs/v.mp3" ∈ build_video_fs_py ∅ "outputs/v.mp3" "outputs/v.mp4" ∧
    "outputs/v.mp4" ∈ build_video_fs_py ∅ "outputs/v.mp3" "outputs/v.mp4" :=
  c4_cleanup_behaviour ∅ "outputs/v.mp3" "outputs/t.png" "outputs/v.mp4"
    (by decide) (by decide)

/-- Any result of either `generate_tech_tips` variant has at most
`num_tips` entries. -/
theorem take_num_length_le (l : List PyStr) (n : Nat) : (l.take n).length ≤ n := by
  rw [List.length_take]
  exact min_le_left _ _

/-- Counterexample for claim C1: the claim says every returned entry is a
non-empty string, but a completion reply consisting of the line `"1."`
makes both variants return the single entry `""` (the marker is stripped
and nothing remains), for `count = 1`. -/
theorem c1_empty_entry_counterexample :
    generate_tech_tips_py "1.".data 1 = some [[]] ∧
    generate_tech_tips_local "1.".data 1 = some [[]] := by
  constructor <;> decide

/-- Claim C1 as amended: for every count and every completion reply text,
whenever `generate_tech_tips` returns (the `generate_videos.py` variant can
raise an `IndexError`, see C8), the returned sequence has length at most
`count`; the entries are the stripped lines with single-digit enumeration
markers removed but need not be non-empty (a line `"1."` yields the entry
`""`); in particular the input line `"1. Use keyboard shortcuts."` yields
the single entry `"Use keyboard shortcuts."` in both variants. -/
theorem c1_length_bound_and_marker_stripping :
    (∀ text num l, generate_tech_tips_py text num = some l → l.length ≤ num) ∧
    (∀ text num l, generate_tech_tips_local text num = some l → l.length ≤ num) ∧
    generate_tech_tips_py "1. Use keyboard shortcuts.".data 1 =
      some ["Use keyboard shortcuts.".data] ∧
    generate_tech_tips_local "1. Use keyboard shortcuts.".data 1 =
      some ["Use keyboard shortcuts.".data] := by
  refine ⟨?_, ?_, by decide, by decide⟩
  · intro text num l h
    cases hp : parseLinesPy (splitLines text) with
    | none => rw [generate_tech_tips_py, hp] at h; exact absurd h (by simp)
    | some ls =>
      rw [generate_tech_tips_py, hp] at h
      simp only [Option.bind_eq_bind, Option.some_bind, Option.pure_def,
        Option.some.injEq] at h
      rw [← h]
      exact take_num_length_le _ _
  · intro text num l h
    cases hp : parseLinesLocal (splitLines text) with
    | none => rw [generate_tech_tips_local, hp] at h; exact absurd h (by simp)
    | some ls =>
      rw [generate_tech_tips_local, hp] at h
      simp only [Option.bind_eq_bind, Option.some_bind, Option.pure_def,
        Option.some.injEq] at h
      rw [← h]
      exact take_num_length_le _ _

/-- Witness for the amended C1: both hypotheses discharged on the reply
`"1. Tip A.\n2. Tip B."` with `count = 1`. -/
theorem c1_length_bound_and_marker_stripping_witness :
    (["Tip A.".data] : List PyStr).length ≤ 1 ∧
    (["Tip A.".data] : List PyStr).length ≤ 1 :=
  ⟨c1_length_bound_and_marker_stripping.1 "1. Tip A.\n2. Tip B.".data 1
      ["Tip A.".data] (by decide),
    c1_length_bound_and_marker_stripping.2.1 "1. Tip A.\n2. Tip B.".data 1
      ["Tip A.".data] (by decide)⟩

/-- Python subscript succeeds below the length. -/
theorem pyGet_eq_some (l : PyStr) (n : Nat) (h : n < l.length) :
    pyGet l n = some l[n] := by
  simp [pyGet, List.getElem?_eq_getElem h]

/-- The guarded line step of the local script never raises. -/
theorem processLineLocal_isSome (line : PyStr) :
    (processLineLocal line).isSome = true := by
  unfold processLineLocal
  by_cases h : 1 < line.length
  · have h0 : 0 < line.length := by omega
    simp only [if_pos h, Option.bind_eq_bind, pyGet_eq_some line 0 h0,
      pyGet_eq_some line 1 h, Option.some_bind]
    split
    · split <;> simp
    · simp
  · simp [if_neg h]

/-- The line loop of the local script never raises. -/
theorem parseLinesLocal_isSome (ls : List PyStr) :
    (parseLinesLocal ls).isSome = true := by
  induction ls with
  | nil => simp [parseLinesLocal]
  | cons l rest ih =>
    simp only [parseLinesLocal]
    by_cases hline : pyStrip l = []
    · simpa [hline] using ih
    · obtain ⟨x, hx⟩ := Option.isSome_iff_exists.mp (processLineLocal_isSome (pyStrip l))
      obtain ⟨r, hr⟩ := Option.isSome_iff_exists.mp ih
      simp [hline, hx, hr]

/-- Claim C8: in `generate_videos.py` the line-parsing loop accesses
`line[1]` whenever the first character of a stripped non-empty line is a
digit, without a length check, so the completion reply `"1"` (one line
consisting of a single digit) raises `IndexError` instead of returning a
sequence; the local variant guards the access with `len(line) > 1` and never
fails this way, on any reply text. -/
theorem c8_unguarded_index_py_guarded_local :
    generate_tech_tips_py "1".data 5 = none ∧
    ∀ text num_tips, (generate_tech_tips_local text num_tips).isSome = true := by
  constructor
  · decide
  · intro text num_tips
    obtain ⟨ls, hls⟩ :=
      Option.isSome_iff_exists.mp (parseLinesLocal_isSome (splitLines text))
    simp [generate_tech_tips_local, hls]

set_option maxRecDepth 200000 in
/-- Claim C7: for every completion reply that parses into fewer than `count`
non-blank lines, `generate_tech_tips` falls back to splitting the raw text
into sentences at `.`, `!`, `?` boundaries followed by spaces, keeps exactly
the sentences whose trimmed length exceeds 10, trims them, and truncates to
the first `count`; on a single unnumbered paragraph of six such sentences,
both variants return exactly the first five trimmed sentences for
`count = 5`. -/
theorem c7_sentence_fallback :
    (∀ text num_tips l, parseLinesPy (splitLines text) = some l →
      l.length < num_tips →
      generate_tech_tips_py text num_tips = some (sentenceFallback text num_tips)) ∧
    (∀ text num_tips l, parseLinesLocal (splitLines text) = some l →
      l.length < num_tips →
      generate_tech_tips_local text num_tips = some (sentenceFallback text num_tips)) ∧
    generate_tech_tips_local samplePara 5 =
      some ["Use two monitors at work.".data, "Back up your files weekly.".data,
        "Update your software often.".data, "Mute notifications at night.".data,
        "Restart your router monthly.".data] ∧
    generate_tech_tips_py samplePara 5 =
      some ["Use two monitors at work.".data, "Back up your files weekly.".data,
        "Update your software often.".data, "Mute notifications at night.".data,
        "Restart your router monthly.".data] := by
  refine ⟨?_, ?_, by decide, by decide⟩
  · intro text num_tips l hp hlt
    rw [generate_tech_tips_py, hp]
    simp [hlt, sentenceFallback, List.take_take]
  · intro text num_tips l hp hlt
    rw [generate_tech_tips_local, hp]
    simp [hlt, sentenceFallback, List.take_take]

set_option maxRecDepth 200000 in
/-- Witness for C7: both fallback hypotheses discharged on the sample
paragraph (one non-blank line, fewer than five). -/
theorem c7_sentence_fallback_witness :
    generate_tech_tips_py samplePara 5 = some (sentenceFallback samplePara 5) ∧
    generate_tech_tips_local samplePara 5 = some (sentenceFallback samplePara 5) :=
  ⟨c7_sentence_fallback.1 samplePara 5 [samplePara] (by decide) (by decide),
    c7_sentence_fallback.2.1 samplePara 5 [samplePara] (by decide) (by decide)⟩

/-- A loop run in which every build succeeds ends in `Except.ok`, keeps
everything already on disk, and has produced every job's output file. -/
theorem runLoop_ok_of_all (jobs : List (String × Bool)) :
    ∀ fs : Finset String, (∀ j ∈ jobs, j.2 = true) →
    ∃ fs2, runLoop fs jobs = Except.ok fs2 ∧ fs ⊆ fs2 ∧ ∀ j ∈ jobs, j.1 ∈ fs2 := by
  induction jobs with
  | nil => intro fs _; exact ⟨fs, rfl, Finset.Subset.refl fs, by simp⟩
  | cons j rest ih =>
    intro fs hall
    have hj : j.2 = true := hall j (List.mem_cons_self j rest)
    obtain ⟨fs2, h1, h2, h3⟩ :=
      ih (insert j.1 fs) (fun x hx => hall x (List.mem_cons_of_mem j hx))
    refine ⟨fs2, ?_, (Finset.subset_insert j.1 fs).trans h2, ?_⟩
    · simpa [runLoop, hj] using h1
    · intro x hx
      rcases List.mem_cons.mp hx with h | h
      · subst h; exact h2 (Finset.mem_insert_self _ _)
      · exact h3 x h

/-- A loop run whose first failing build is `nm` ends in `Except.error`: the
filesystem then holds the prior contents and the outputs of the successful
builds before the failure, and nothing else. -/
theorem runLoop_error_at_first_failure (pre : List (String × Bool)) :
    ∀ (fs : Finset String) (nm : String) (post : List (String × Bool)),
    (∀ j ∈ pre, j.2 = true) →
    ∃ fs2, runLoop fs (pre ++ (nm, false) :: post) = Except.error fs2 ∧
      fs ⊆ fs2 ∧ (∀ j ∈ pre, j.1 ∈ fs2) ∧
      ∀ x ∈ fs2, x ∈ fs ∨ x ∈ pre.map Prod.fst := by
  induction pre with
  | nil =>
    intro fs nm post _
    exact ⟨fs, by simp [runLoop], Finset.Subset.refl fs, by simp,
      fun x hx => Or.inl hx⟩
  | cons j pre' ih =>
    intro fs nm post hall
    have hj : j.2 = true := hall j (List.mem_cons_self j pre')
    obtain ⟨fs2, h1, h2, h3, h4⟩ :=
      ih (insert j.1 fs) nm post (fun x hx => hall x (List.mem_cons_of_mem j hx))
    refine ⟨fs2, ?_, (Finset.subset_insert j.1 fs).trans h2, ?_, ?_⟩
    · simpa [runLoop, hj] using h1
    · intro x hx
      rcases List.mem_cons.mp hx with h | h
      · subst h; exact h2 (Finset.mem_insert_self _ _)
      · exact h3 x h
    · intro x hx
      rcases h4 x hx with h | h
      · rcases Finset.mem_insert.mp h with h' | h'
        · right; rw [List.map_cons, h']; exact List.mem_cons_self _ _
        · left; exact h'
      · right; rw [List.map_cons]; exact List.mem_cons_of_mem _ h

/-- Claim C6: `videos_log.json` is written exactly once, after every tip in
the batch has been processed; if tip generation fails, or any per-tip build
fails (the first failure being at job `nm`), the process exits with
non-zero status and the manifest is never written, while the video files
produced before the failure remain on disk. -/
theorem c6_manifest_written_once_or_not_at_all
    (fs0 : Finset String) (jobs : List (String × Bool)) :
    ((∀ j ∈ jobs, j.2 = true) →
      (runBatch fs0 true jobs).2.2 = 1 ∧ (runBatch fs0 true jobs).2.1 = 0 ∧
      MANIFEST_FILE ∈ (runBatch fs0 true jobs).1 ∧
      ∀ j ∈ jobs, j.1 ∈ (runBatch fs0 true jobs).1) ∧
    (∀ pre nm post, jobs = pre ++ (nm, false) :: post →
      (∀ j ∈ pre, j.2 = true) → MANIFEST_FILE ∉ fs0 →
      MANIFEST_FILE ∉ pre.map Prod.fst →
      (runBatch fs0 true jobs).2.2 = 0 ∧ (runBatch fs0 true jobs).2.1 = 1 ∧
      MANIFEST_FILE ∉ (runBatch fs0 true jobs).1 ∧
      ∀ j ∈ pre, j.1 ∈ (runBatch fs0 true jobs).1) ∧
    (MANIFEST_FILE ∉ fs0 →
      (runBatch fs0 false jobs).2.2 = 0 ∧ (runBatch fs0 false jobs).2.1 = 1 ∧
      MANIFEST_FILE ∉ (runBatch fs0 false jobs).1) := by
  refine ⟨?_, ?_, ?_⟩
  · intro hall
    obtain ⟨fs2, h1, h2, h3⟩ := runLoop_ok_of_all jobs fs0 hall
    have hb : runBatch fs0 true jobs = (insert MANIFEST_FILE fs2, 0, 1) := by
      simp [runBatch, h1]
    rw [hb]
    exact ⟨rfl, rfl, Finset.mem_insert_self _ _,
      fun j hj => Finset.mem_insert_of_mem (h3 j hj)⟩
  · intro pre nm post hjobs hall hm0 hmpre
    subst hjobs
    obtain ⟨fs2, h1, h2, h3, h4⟩ :=
      runLoop_error_at_first_failure pre fs0 nm post hall
    have hb : runBatch fs0 true (pre ++ (nm, false) :: post) = (fs2, 1, 0) := by
      simp [runBatch, h1]
    rw [hb]
    refine ⟨rfl, rfl, ?_, fun j hj => h3 j hj⟩
    intro hmem
    rcases h4 _ hmem with h | h
    · exact hm0 h
    · exact hmpre h
  · intro hm0
    exact ⟨rfl, rfl, hm0⟩

set_option maxRecDepth 10000 in
/-- Witness for C6: an all-successful batch of one tip writes the manifest;
a batch whose second build fails writes no manifest but keeps the first
video; a failed tip generation writes no manifest. -/
theorem c6_manifest_written_once_or_not_at_all_witness :
    MANIFEST_FILE ∈ (runBatch ∅ true [("outputs/a.mp4", true)]).1 ∧
    (MANIFEST_FILE ∉
        (runBatch ∅ true [("outputs/a.mp4", true), ("outputs/b.mp4", false)]).1 ∧
      "outputs/a.mp4" ∈
        (runBatch ∅ true [("outputs/a.mp4", true), ("outputs/b.mp4", false)]).1) ∧
    MANIFEST_FILE ∉ (runBatch ∅ false []).1 := by
  refine ⟨?_, ?_, ?_⟩
  · exact ((c6_manifest_written_once_or_not_at_all ∅
      [("outputs/a.mp4", true)]).1 (by decide)).2.2.1
  · have h := (c6_manifest_written_once_or_not_at_all ∅
      [("outputs/a.mp4", true), ("outputs/b.mp4", false)]).2.1
      [("outputs/a.mp4", true)] "outputs/b.mp4" [] rfl
      (by decide) (by decide) (by decide)
    exact ⟨h.2.2.1, h.2.2.2 ("outputs/a.mp4", true) (by decide)⟩
  · exact ((c6_manifest_written_once_or_not_at_all ∅ []).2.2 (by decide)).2.2

/-- Appending one digit multiplies the denoted value by ten. -/
theorem evalDec_append_digit (xs : List Char) (c : Char) :
    evalDec (xs ++ [c]) = 10 * evalDec xs + (c.toNat - 48) := by
  simp [evalDec, List.foldl_append]

/-- Code point of a decimal digit character. -/
theorem digitChar_toNat_of_lt : ∀ n < 10, (Nat.digitChar n).toNat = 48 + n := by
  decide

/-- With enough fuel, `evalDec` inverts `toDecimalAux`. -/
theorem evalDec_toDecimalAux : ∀ fuel n, n < fuel →
    evalDec (toDecimalAux fuel n) = n := by
  intro fuel
  induction fuel with
  | zero => intro n h; omega
  | succ f ih =>
    intro n h
    by_cases h10 : n < 10
    · simp only [toDecimalAux, if_pos h10]
      simp [evalDec, digitChar_toNat_of_lt n h10]
    · have hdiv : n / 10 < f := by
        have := Nat.div_lt_self (by omega : 0 < n) (by omega : 1 < 10)
        omega
      simp only [toDecimalAux, if_neg h10]
      rw [evalDec_append_digit, ih (n / 10) hdiv,
        digitChar_toNat_of_lt (n % 10) (Nat.mod_lt n (by omega))]
      omega

/-- Decimal rendering is injective. -/
theorem toDecimal_injective (m n : Nat) (h : toDecimal m = toDecimal n) :
    m = n := by
  have hm := evalDec_toDecimalAux (m + 1) m (Nat.lt_succ_self m)
  have hn := evalDec_toDecimalAux (n + 1) n (Nat.lt_succ_self n)
  unfold toDecimal at h
  rw [← hm, ← hn, h]

/-- Decimal digit characters only. -/
theorem digitChar_isDigit_of_lt : ∀ n < 10, (Nat.digitChar n).isDigit = true := by
  decide

/-- Every character of a decimal rendering is a digit. -/
theorem toDecimalAux_digits : ∀ fuel n c, c ∈ toDecimalAux fuel n →
    c.isDigit = true := by
  intro fuel
  induction fuel with
  | zero => intro n c h; simp [toDecimalAux] at h
  | succ f ih =>
    intro n c h
    by_cases h10 : n < 10
    · simp only [toDecimalAux, if_pos h10, List.mem_singleton] at h
      subst h
      exact digitChar_isDigit_of_lt n h10
    · simp only [toDecimalAux, if_neg h10, List.mem_append,
        List.mem_singleton] at h
      rcases h with h | h
      · exact ih (n / 10) c h
      · subst h
        exact digitChar_isDigit_of_lt (n % 10) (Nat.mod_lt n (by omega))

/-- An underscore never occurs in a decimal rendering. -/
theorem underscore_not_mem_toDecimal (n : Nat) : '_' ∉ toDecimal n :=
  fun h => absurd (toDecimalAux_digits (n + 1) n '_' h) (by decide)

/-- Lists that agree and contain no underscore before their first
underscore agree on both sides of it. -/
theorem eq_of_append_underscore (u1 : List Char) :
    ∀ u2 v1 v2 : List Char, '_' ∉ u1 → '_' ∉ u2 →
    u1 ++ '_' :: v1 = u2 ++ '_' :: v2 → u1 = u2 ∧ v1 = v2 := by
  induction u1 with
  | nil =>
    intro u2 v1 v2 _ h2 heq
    cases u2 with
    | nil =>
      simp only [List.nil_append, List.cons.injEq] at heq
      exact ⟨rfl, heq.2⟩
    | cons c u2' =>
      simp only [List.nil_append, List.cons_append, List.cons.injEq] at heq
      rw [← heq.1] at h2
      exact absurd (List.mem_cons_self _ _) h2
  | cons c u1' ih =>
    intro u2 v1 v2 h1 h2 heq
    cases u2 with
    | nil =>
      simp only [List.cons_append, List.nil_append, List.cons.injEq] at heq
      rw [heq.1] at h1
      exact absurd (List.mem_cons_self _ _) h1
    | cons d u2' =>
      simp only [List.cons_append, List.cons.injEq] at heq
      obtain ⟨hcd, htl⟩ := heq
      obtain ⟨he, hv⟩ := ih u2' v1 v2
        (fun h => h1 (List.mem_cons_of_mem _ h))
        (fun h => h2 (List.mem_cons_of_mem _ h)) htl
      exact ⟨by rw [hcd, he], hv⟩

/-- Claim C10: within a single batch run the output file names assigned to
distinct tips are pairwise distinct: for distinct loop indices `i` and `j`
the names `tech_tip_<ts_i>_<i+1>.mp4` and `tech_tip_<ts_j>_<j+1>.mp4`
differ, because the 1-based index suffix differs even when the integer unix
timestamps coincide. -/
theorem c10_output_names_distinct (ts1 ts2 i j : Nat) (hij : i ≠ j) :
    video_name ts1 i ≠ video_name ts2 j := by
  intro heq
  unfold video_name at heq
  have h1 := List.append_cancel_left heq
  obtain ⟨-, h2⟩ := eq_of_append_underscore (toDecimal ts1) (toDecimal ts2) _ _
    (underscore_not_mem_toDecimal ts1) (underscore_not_mem_toDecimal ts2) h1
  have h3 := List.append_cancel_right h2
  have h4 := toDecimal_injective _ _ h3
  omega

/-- Witness for C10: same timestamp, indices 0 and 1. -/
theorem c10_output_names_distinct_witness :
    video_name 7 0 ≠ video_name 7 1 :=
  c10_output_names_distinct 7 7 0 1 (by decide)
